import Mathlib

/-!
Verification of the Device Identity & Cross-Node Admission Control subsystem
of skybots-tg/marzneshin.

The file embeds, in order:
* the fingerprint engine (`calculateDeviceFingerprint`, translated from the Go
  reference implementation shipped in the repository's migration document,
  including a full executable SHA-256 over byte lists);
* the zod `DeviceSchema` validator from
  `dashboard/src/modules/devices/domain/schema.ts`;
* the per-user device store / admission evaluator state machine and the sync
  dispatcher, modelled from the specification (the Python backend named by the
  design document is not part of this source tree).

Machine words are `Nat` reduced modulo `2 ^ 32` where the source uses `uint32`.
-/

namespace Marzneshin

/-! ### SHA-256 over byte lists

Executable embedding of FIPS 180-4 SHA-256 as used by Go's `sha256.Sum256`.
Bytes are naturals below 256, words are naturals reduced mod `2 ^ 32`. -/

/-- Reduce a natural to a 32-bit word. -/
def w32 (n : Nat) : Nat := n % 4294967296

/-- 32-bit right rotation. -/
def rotr32 (n x : Nat) : Nat := w32 ((x >>> n) ||| (x <<< (32 - n)))

/-- Round function `Ch(e,f,g)`; the complement is taken inside 32 bits. -/
def shaCh (e f g : Nat) : Nat := (e &&& f) ^^^ ((e ^^^ 4294967295) &&& g)

/-- Round function `Maj(a,b,c)`. -/
def shaMaj (a b c : Nat) : Nat := (a &&& b) ^^^ (a &&& c) ^^^ (b &&& c)

/-- Schedule function `σ₀`. -/
def shaLoS0 (x : Nat) : Nat := rotr32 7 x ^^^ rotr32 18 x ^^^ (x >>> 3)

/-- Schedule function `σ₁`. -/
def shaLoS1 (x : Nat) : Nat := rotr32 17 x ^^^ rotr32 19 x ^^^ (x >>> 10)

/-- Round function `Σ₀`. -/
def shaHiS0 (x : Nat) : Nat := rotr32 2 x ^^^ rotr32 13 x ^^^ rotr32 22 x

/-- Round function `Σ₁`. -/
def shaHiS1 (x : Nat) : Nat := rotr32 6 x ^^^ rotr32 11 x ^^^ rotr32 25 x

/-- The 64 SHA-256 round constants, written in decimal. -/
def shaK : List Nat :=
  [1116352408, 1899447441, 3049323471, 3921009573, 961987163,
   1508970993, 2453635748, 2870763221, 3624381080, 310598401,
   607225278, 1426881987, 1925078388, 2162078206, 2614888103,
   3248222580, 3835390401, 4022224774, 264347078, 604807628,
   770255983, 1249150122, 1555081692, 1996064986, 2554220882,
   2821834349, 2952996808, 3210313671, 3336571891, 3584528711,
   113926993, 338241895, 666307205, 773529912, 1294757372,
   1396182291, 1695183700, 1986661051, 2177026350, 2456956037,
   2730485921, 2820302411, 3259730800, 3345764771, 3516065817,
   3600352804, 4094571909, 275423344, 430227734, 506948616,
   659060556, 883997877, 958139571, 1322822218, 1537002063,
   1747873779, 1955562222, 2024104815, 2227730452, 2361852424,
   2428436474, 2756734187, 3204031479, 3329325298]

/-- The SHA-256 initial hash value, written in decimal. -/
def shaH0 : List Nat :=
  [1779033703, 3144134277, 1013904242, 2773480762,
   1359893119, 2600822924, 528734635, 1541459225]

/-- Group a byte list into big-endian 32-bit words. -/
def bytesToWords : List Nat → List Nat
  | b0 :: b1 :: b2 :: b3 :: rest =>
      (b0 * 16777216 + b1 * 65536 + b2 * 256 + b3) :: bytesToWords rest
  | _ => []

/-- Big-endian bytes of a 32-bit word. -/
def wordBytes (w : Nat) : List Nat :=
  [w / 16777216 % 256, w / 65536 % 256, w / 256 % 256, w % 256]

/-- Big-endian bytes of each word, concatenated. -/
def wordsToBytes (ws : List Nat) : List Nat := (ws.map wordBytes).flatten

/-- Extend the 16 block words by `k` further schedule words. -/
def shaSched (ws : List Nat) : Nat → List Nat
  | 0 => ws
  | k + 1 =>
      let n := ws.length
      let next := w32 (shaLoS1 (ws.getD (n - 2) 0) + ws.getD (n - 7) 0 +
        shaLoS0 (ws.getD (n - 15) 0) + ws.getD (n - 16) 0)
      shaSched (ws ++ [next]) k

/-- One SHA-256 round: fold the working variables over a `(Kᵢ, Wᵢ)` pair. -/
def shaRound (st : Nat × Nat × Nat × Nat × Nat × Nat × Nat × Nat)
    (kw : Nat × Nat) : Nat × Nat × Nat × Nat × Nat × Nat × Nat × Nat :=
  match st with
  | (a, b, c, d, e, f, g, h) =>
    let t1 := w32 (h + shaHiS1 e + shaCh e f g + kw.1 + kw.2)
    let t2 := w32 (shaHiS0 a + shaMaj a b c)
    (w32 (t1 + t2), a, b, c, w32 (d + t1), e, f, g)

/-- Compress one 64-byte block into the running hash value. -/
def shaCompress (h : List Nat) (block : List Nat) : List Nat :=
  let ws := shaSched (bytesToWords block) 48
  let fin := (shaK.zip ws).foldl shaRound
    (h.getD 0 0, h.getD 1 0, h.getD 2 0, h.getD 3 0,
     h.getD 4 0, h.getD 5 0, h.getD 6 0, h.getD 7 0)
  match fin with
  | (a, b, c, d, e, f, g, hh) =>
    [w32 (h.getD 0 0 + a), w32 (h.getD 1 0 + b), w32 (h.getD 2 0 + c),
     w32 (h.getD 3 0 + d), w32 (h.getD 4 0 + e), w32 (h.getD 5 0 + f),
     w32 (h.getD 6 0 + g), w32 (h.getD 7 0 + hh)]

/-- Big-endian 8-byte encoding of the message bit length. -/
def shaLenBytes (bits : Nat) : List Nat :=
  [bits / 72057594037927936 % 256, bits / 281474976710656 % 256,
   bits / 1099511627776 % 256, bits / 4294967296 % 256,
   bits / 16777216 % 256, bits / 65536 % 256, bits / 256 % 256, bits % 256]

/-- SHA-256 padding: `0x80`, zeros to 56 mod 64, then the 64-bit bit length. -/
def shaPad (msg : List Nat) : List Nat :=
  let l := msg.length
  let zeros := (120 - (l + 1) % 64) % 64
  msg ++ [0x80] ++ List.replicate zeros 0 ++ shaLenBytes (8 * l)

/-- Process the padded message 64 bytes at a time; `fuel` bounds the loop and
is instantiated with the padded length, which always suffices. -/
def shaBlocks : Nat → List Nat → List Nat → List Nat
  | 0, _, h => h
  | fuel + 1, bytes, h =>
      match bytes with
      | [] => h
      | _ :: _ => shaBlocks fuel (bytes.drop 64) (shaCompress h (bytes.take 64))

/-- SHA-256 of a byte list, as 32 bytes. -/
def sha256 (msg : List Nat) : List Nat :=
  let p := shaPad msg
  wordsToBytes (shaBlocks p.length p shaH0)

/-- Lower-case hex digit. -/
def hexDigit (n : Nat) : Char :=
  if n < 10 then Char.ofNat (48 + n) else Char.ofNat (87 + n)

/-- Lower-case hex encoding of a byte list, as Go's `hex.EncodeToString`. -/
def hexEncodeToString (bs : List Nat) : String :=
  String.mk ((bs.map fun b => [hexDigit (b / 16), hexDigit (b % 16)]).flatten)

/-- UTF-8 encoding of one Unicode scalar value. -/
def utf8Char (c : Char) : List Nat :=
  let n := c.toNat
  if n < 128 then [n]
  else if n < 2048 then [192 + n / 64, 128 + n % 64]
  else if n < 65536 then [224 + n / 4096, 128 + n / 64 % 64, 128 + n % 64]
  else [240 + n / 262144, 128 + n / 4096 % 64, 128 + n / 64 % 64, 128 + n % 64]

/-- UTF-8 bytes of a string, as Go's `[]byte(source)`. -/
def utf8Bytes (s : String) : List Nat := (s.data.map utf8Char).flatten

/-- Go's `strings.Join`: concatenate the elements separated by `sep`. -/
def stringsJoin (sep : String) : List String → String
  | [] => ""
  | [x] => x
  | x :: xs => x ++ sep ++ stringsJoin sep xs

/-- The fingerprint engine, translated from the reference implementation
`calculateDeviceFingerprint` in the repository's migration document: the
components `["", clientName, tlsFingerprint, "", userAgent]` (user identity and
os guess deliberately left as empty placeholders) joined with `"|"`, hashed
with SHA-256 and hex encoded. -/
def calculateDeviceFingerprint (clientName tlsFingerprint userAgent : String) :
    String :=
  let components := ["", clientName, tlsFingerprint, "", userAgent]
  let source := stringsJoin "|" components
  hexEncodeToString (sha256 (utf8Bytes source))

/-! ### The dashboard's device-mutation schema

Embedding of `DeviceSchema` from
`dashboard/src/modules/devices/domain/schema.ts`:
```
z.object({
    display_name: z.string().max(64).nullable().optional(),
    is_blocked: z.boolean().optional(),
    trust_level: z.number().int().min(-100).max(100).optional(),
})
```
A payload field may be absent (`none`); `display_name` may additionally be
`null` (`some none`).  JavaScript numbers are modelled as rationals, on which
zod's `Number.isInteger` check is denominator-one. -/

/-- A device-mutation payload as seen by `DeviceSchema`. -/
structure DevicePayload where
  display_name : Option (Option String)
  is_blocked : Option Bool
  trust_level : Option ℚ

/-- The check `z.string().max(64).nullable().optional()` for `display_name`:
absent, null, or a string of at most 64 characters. -/
def validDisplayName : Option (Option String) → Bool
  | none => true
  | some none => true
  | some (some s) => decide (s.length ≤ 64)

/-- The check `z.number().int().min(-100).max(100).optional()` for
`trust_level`: absent, or an integer between -100 and 100. -/
def validTrustLevel : Option ℚ → Bool
  | none => true
  | some q => decide (q.den = 1) && decide (-100 ≤ q) && decide (q ≤ 100)

/-- The zod validator: every declared field must pass its check
(`is_blocked` carries no constraint beyond being an optional boolean, which
the payload type already ensures). -/
def DeviceSchema.validate (p : DevicePayload) : Bool :=
  validDisplayName p.display_name && validTrustLevel p.trust_level

/-! ### Device store and admission evaluator

Modelled from the spec: the backend that implements §4.2/§4.3
(`app/utils/device_tracker.py`, `app/routes/device.py` per the design
document) is not part of this source tree, so the per-user device store and
the admission evaluator are modelled from the specification's contracts.
Per §4.3/§5 every evaluation for a given user runs under the per-user
serialization boundary, so a concurrent execution is an interleaving of
atomic `evaluate` steps. -/

/-- Modelled from the spec: one recognized device row of one user (§3),
restricted to the fields the claims are about. -/
structure Device where
  devId : Nat
  fingerprint : String
  is_blocked : Bool
  trust_level : Int
  display_name : Option String
deriving DecidableEq, Repr

/-- Modelled from the spec: the control-plane state for one user — the device
rows, the allow-list epoch (§3 `AllowListVersion`), the queue of enqueued
sync-task epochs, and the id counter for row creation. -/
structure UserState where
  devices : List Device
  epoch : Nat
  syncQueue : List Nat
  nextId : Nat
deriving DecidableEq, Repr

/-- The empty per-user state. -/
def UserState.initial : UserState := ⟨[], 0, [], 0⟩

/-- The user's allow-list: fingerprints of the non-blocked devices (§3). -/
def allowList (st : UserState) : List String :=
  (st.devices.filter fun d => !d.is_blocked).map Device.fingerprint

/-- The current count of non-blocked devices (§4.3). -/
def nonBlockedCount (st : UserState) : Nat :=
  (st.devices.filter fun d => !d.is_blocked).length

/-- Whether `fp` is already a known, non-blocked device (§4.3). -/
def knownNonBlocked (st : UserState) (fp : String) : Bool :=
  st.devices.any fun d => d.fingerprint == fp && !d.is_blocked

/-- Whether any row (blocked or not) carries `fp` (§3 upsert key). -/
def knownFingerprint (st : UserState) (fp : String) : Bool :=
  st.devices.any fun d => d.fingerprint == fp

/-- Modelled from the spec: rejection reasons of §4.3/§7. -/
inductive RejectReason
  | limitExceeded
  | deviceBlocked
deriving DecidableEq, Repr

/-- Modelled from the spec: the admission decision (§4.3). -/
inductive EvalResult
  | accept
  | reject (reason : RejectReason)
deriving DecidableEq, Repr

/-- Create the device row for a newly accepted fingerprint, bump the user's
epoch and enqueue a sync task carrying the new epoch (§4.3). -/
def acceptNewDevice (st : UserState) (fp : String) : UserState :=
  { devices := st.devices ++ [⟨st.nextId, fp, false, 0, none⟩]
    epoch := st.epoch + 1
    syncQueue := st.syncQueue ++ [st.epoch + 1]
    nextId := st.nextId + 1 }

/-- Modelled from the spec: the Admission Evaluator contract of §4.3.
A known non-blocked fingerprint is a reconnection and is accepted with no
state change; a known blocked fingerprint is rejected with no state change;
an unseen fingerprint is accepted and a row created when `device_limit` is
unset or the current non-blocked count is below it, and otherwise rejected
with `limit_exceeded` and no state change.  §4.3's decision rule does not
consult `enforce`; the flag is carried to the nodes in the allow-list
snapshot. -/
def evaluate (st : UserState) (fp : String) (device_limit : Option Nat)
    (enforce : Bool) : EvalResult × UserState :=
  if knownNonBlocked st fp then
    (EvalResult.accept, st)
  else if knownFingerprint st fp then
    (EvalResult.reject RejectReason.deviceBlocked, st)
  else
    match device_limit with
    | none => (EvalResult.accept, acceptNewDevice st fp)
    | some n =>
        if nonBlockedCount st < n then
          (EvalResult.accept, acceptNewDevice st fp)
        else
          (EvalResult.reject RejectReason.limitExceeded, st)

/-- Run a sequence of ingestion events (one fingerprint each) through the
evaluator, returning the decisions in order and the final state.  By the
per-user atomicity requirement of §4.3/§5 every concurrent schedule of
ingestions is equivalent to some such sequence. -/
def runIngestions (st : UserState) (fps : List String)
    (device_limit : Option Nat) (enforce : Bool) :
    List EvalResult × UserState :=
  match fps with
  | [] => ([], st)
  | fp :: rest =>
      let r := evaluate st fp device_limit enforce
      let t := runIngestions r.2 rest device_limit enforce
      (r.1 :: t.1, t.2)

/-- Look up a device row by id. -/
def findDevice (st : UserState) (did : Nat) : Option Device :=
  st.devices.find? fun d => d.devId == did

/-- Apply `f` to the row with id `did`, leaving the other rows unchanged. -/
def updateRows (st : UserState) (did : Nat) (f : Device → Device) :
    List Device :=
  st.devices.map fun d => if d.devId == did then f d else d

/-- Modelled from the spec: `block(device_id)` (§4.2).  Returns the updated
device, the resync signal (always `true` for block) and the new state; the
user's epoch is bumped once and a sync task enqueued.  `none` when no such
device exists. -/
def blockDevice (st : UserState) (did : Nat) :
    Option (Device × Bool × UserState) :=
  match findDevice st did with
  | none => none
  | some d =>
      some ({ d with is_blocked := true }, true,
        { devices := updateRows st did fun x => { x with is_blocked := true }
          epoch := st.epoch + 1
          syncQueue := st.syncQueue ++ [st.epoch + 1]
          nextId := st.nextId })

/-- Modelled from the spec: `unblock(device_id)` (§4.2).  Always signals a
resync and bumps the epoch once. -/
def unblockDevice (st : UserState) (did : Nat) :
    Option (Device × Bool × UserState) :=
  match findDevice st did with
  | none => none
  | some d =>
      some ({ d with is_blocked := false }, true,
        { devices := updateRows st did fun x => { x with is_blocked := false }
          epoch := st.epoch + 1
          syncQueue := st.syncQueue ++ [st.epoch + 1]
          nextId := st.nextId })

/-- Modelled from the spec: `delete(device_id)` (§4.2).  Hard-deletes the row,
always signals a resync and bumps the epoch once. -/
def deleteDevice (st : UserState) (did : Nat) :
    Option (Device × Bool × UserState) :=
  match findDevice st did with
  | none => none
  | some d =>
      some (d, true,
        { devices := st.devices.filter fun x => !(x.devId == did)
          epoch := st.epoch + 1
          syncQueue := st.syncQueue ++ [st.epoch + 1]
          nextId := st.nextId })

/-- Modelled from the spec: `setTrustLevel(device_id, v)` (§4.2).  Never
signals a resync and leaves epoch and sync queue untouched. -/
def setTrustLevel (st : UserState) (did : Nat) (v : Int) :
    Option (Device × Bool × UserState) :=
  match findDevice st did with
  | none => none
  | some d =>
      some ({ d with trust_level := v }, false,
        { devices := updateRows st did fun x => { x with trust_level := v }
          epoch := st.epoch
          syncQueue := st.syncQueue
          nextId := st.nextId })

/-- Modelled from the spec: `setDisplayName(device_id, s)` (§4.2).  Never
signals a resync and leaves epoch and sync queue untouched. -/
def setDisplayName (st : UserState) (did : Nat) (s : Option String) :
    Option (Device × Bool × UserState) :=
  match findDevice st did with
  | none => none
  | some d =>
      some ({ d with display_name := s }, false,
        { devices := updateRows st did fun x => { x with display_name := s }
          epoch := st.epoch
          syncQueue := st.syncQueue
          nextId := st.nextId })

/-! ### Sync dispatcher and reconciliation

Modelled from the spec: the Sync Dispatcher (§4.4) tracks, for one user, the
latest allow-list epoch and the per-node acked epoch.  A node id is *online*
when its sends currently succeed. -/

/-- Modelled from the spec: dispatcher state for one user — the latest epoch
and each node's acked epoch. -/
structure SyncState where
  latestEpoch : Nat
  acked : Nat → Nat

/-- The dispatcher state before any mutation: epoch 0, nothing acked. -/
def SyncState.start : SyncState := ⟨0, fun _ => 0⟩

/-- Modelled from the spec: dispatcher events (§4.4).  A mutation bumps the
latest epoch; an ack records a dispatched epoch for one node — tasks always
carry an epoch that exists, and a stale ack never lowers the recorded one. -/
inductive SyncStep : SyncState → SyncState → Prop
  | mutate (st : SyncState) :
      SyncStep st ⟨st.latestEpoch + 1, st.acked⟩
  | ackTask (st : SyncState) (n e : Nat) (he : e ≤ st.latestEpoch) :
      SyncStep st ⟨st.latestEpoch,
        fun m => if m = n then max (st.acked n) e else st.acked m⟩

/-- Dispatcher states reachable from `SyncState.start` by a finite sequence
of mutations and acks. -/
def SyncReachable (st : SyncState) : Prop :=
  Relation.ReflTransGen SyncStep SyncState.start st

/-- Modelled from the spec: the periodic reconciliation sweep (§4.4)
re-dispatches to every online node whose acked epoch is behind the latest
epoch; a successful re-dispatch brings that node's acked epoch to the latest
one. -/
def reconcileSweep (online : List Nat) (st : SyncState) : SyncState :=
  { latestEpoch := st.latestEpoch
    acked := fun n =>
      if n ∈ online ∧ st.acked n < st.latestEpoch then st.latestEpoch
      else st.acked n }

/-! ### Supporting lemmas -/

/-- An unseen fingerprint is in particular not a known non-blocked one. -/
theorem knownNonBlocked_false_of (st : UserState) (fp : String)
    (h : knownFingerprint st fp = false) : knownNonBlocked st fp = false := by
  simp only [knownFingerprint, List.any_eq_false] at h
  simp only [knownNonBlocked, List.any_eq_false]
  intro d hd
  simp_all

/-- Creating a device row adds exactly one non-blocked device. -/
theorem nonBlockedCount_acceptNewDevice (st : UserState) (fp : String) :
    nonBlockedCount (acceptNewDevice st fp) = nonBlockedCount st + 1 := by
  simp [nonBlockedCount, acceptNewDevice, List.filter_append]

/-- Creating a device row appends its fingerprint to the allow-list. -/
theorem allowList_acceptNewDevice (st : UserState) (fp : String) :
    allowList (acceptNewDevice st fp) = allowList st ++ [fp] := by
  simp [allowList, acceptNewDevice, List.filter_append]

/-! ### Claim theorems -/

/-- C2: for every `evaluate` call on a fingerprint unseen for the user, if
`device_limit` is unset or the current non-blocked count is strictly below it
the result is Accept and exactly one device row is created; otherwise the
result is Reject(limit_exceeded) and the state, in particular the row set, is
unchanged. -/
theorem evaluate_unseen_spec (st : UserState) (fp : String)
    (device_limit : Option Nat) (enforce : Bool)
    (hunseen : knownFingerprint st fp = false) :
    ((device_limit = none ∨
        ∃ n, device_limit = some n ∧ nonBlockedCount st < n) →
      evaluate st fp device_limit enforce =
        (EvalResult.accept, acceptNewDevice st fp) ∧
      (acceptNewDevice st fp).devices =
        st.devices ++ [⟨st.nextId, fp, false, 0, none⟩]) ∧
    (∀ n, device_limit = some n → n ≤ nonBlockedCount st →
      evaluate st fp device_limit enforce =
        (EvalResult.reject RejectReason.limitExceeded, st)) := by
  have hnb := knownNonBlocked_false_of st fp hunseen
  constructor
  · rintro (rfl | ⟨n, rfl, hlt⟩)
    · simp [evaluate, hnb, hunseen, acceptNewDevice]
    · simp [evaluate, hnb, hunseen, hlt, acceptNewDevice]
  · rintro n rfl hle
    simp [evaluate, hnb, hunseen, Nat.not_lt.mpr hle]

/-- Witness for C2 at a concrete input: from the empty state, ingesting the
unseen fingerprint `"a"` under limit 1 accepts and creates the row. -/
theorem evaluate_unseen_spec_witness :
    evaluate UserState.initial "a" (some 1) true =
      (EvalResult.accept, acceptNewDevice UserState.initial "a") :=
  ((evaluate_unseen_spec UserState.initial "a" (some 1) true (by decide)).1
    (Or.inr ⟨1, rfl, by decide⟩)).1

/-- C4: whenever the evaluator rejects, the state is unchanged — no device
row is created, no sync task is enqueued, and the allow-list and epoch are
exactly what they were before the call. -/
theorem evaluate_reject_no_change (st : UserState) (fp : String)
    (device_limit : Option Nat) (enforce : Bool) (r : RejectReason)
    (h : (evaluate st fp device_limit enforce).1 = EvalResult.reject r) :
    (evaluate st fp device_limit enforce).2 = st ∧
    allowList (evaluate st fp device_limit enforce).2 = allowList st ∧
    (evaluate st fp device_limit enforce).2.epoch = st.epoch ∧
    (evaluate st fp device_limit enforce).2.syncQueue = st.syncQueue ∧
    (evaluate st fp device_limit enforce).2.devices = st.devices := by
  have h2 : (evaluate st fp device_limit enforce).2 = st := by
    by_cases h1 : knownNonBlocked st fp = true
    · simp [evaluate, h1] at h
    · by_cases hk : knownFingerprint st fp = true
      · simp [evaluate, h1, hk]
      · cases device_limit with
        | none => simp [evaluate, h1, hk] at h
        | some n =>
            by_cases h3 : nonBlockedCount st < n
            · simp [evaluate, h1, hk, h3] at h
            · simp [evaluate, h1, hk, h3]
  exact ⟨h2, by rw [h2], by rw [h2], by rw [h2], by rw [h2]⟩

/-- Witness for C4 at a concrete input: with one device already present under
limit 1, ingesting the unseen fingerprint `"b"` is rejected and the state is
returned untouched. -/
theorem evaluate_reject_no_change_witness :
    (evaluate ⟨[⟨0, "a", false, 0, none⟩], 1, [1], 1⟩ "b" (some 1) true).2 =
      ⟨[⟨0, "a", false, 0, none⟩], 1, [1], 1⟩ :=
  (evaluate_reject_no_change ⟨[⟨0, "a", false, 0, none⟩], 1, [1], 1⟩ "b"
    (some 1) true RejectReason.limitExceeded (by decide)).1

/-- C5: re-ingesting an already-known, non-blocked fingerprint is idempotent:
it returns Accept, creates no row and leaves the user's epoch unchanged. -/
theorem evaluate_reconnect_idempotent (st : UserState) (fp : String)
    (device_limit : Option Nat) (enforce : Bool)
    (h : knownNonBlocked st fp = true) :
    evaluate st fp device_limit enforce = (EvalResult.accept, st) ∧
    (evaluate st fp device_limit enforce).2.devices = st.devices ∧
    (evaluate st fp device_limit enforce).2.epoch = st.epoch := by
  simp [evaluate, h]

/-- Witness for C5 at a concrete input: re-ingesting `"a"` when its device
row already exists and is not blocked returns Accept with the state
unchanged. -/
theorem evaluate_reconnect_idempotent_witness :
    evaluate ⟨[⟨0, "a", false, 0, none⟩], 1, [1], 1⟩ "a" (some 1) true =
      (EvalResult.accept, ⟨[⟨0, "a", false, 0, none⟩], 1, [1], 1⟩) :=
  (evaluate_reconnect_idempotent ⟨[⟨0, "a", false, 0, none⟩], 1, [1], 1⟩ "a"
    (some 1) true (by decide)).1

/-- One evaluation step keeps the non-blocked device count within the
limit. -/
theorem evaluate_preserves_bound (st : UserState) (fp : String) (n : Nat)
    (enf : Bool) (h : nonBlockedCount st ≤ n) :
    nonBlockedCount (evaluate st fp (some n) enf).2 ≤ n := by
  by_cases h1 : knownNonBlocked st fp = true
  · simpa [evaluate, h1] using h
  · by_cases hk : knownFingerprint st fp = true
    · simpa [evaluate, h1, hk] using h
    · by_cases h3 : nonBlockedCount st < n
      · simp [evaluate, h1, hk, h3, nonBlockedCount_acceptNewDevice]
        omega
      · simpa [evaluate, h1, hk, h3] using h

/-- Any sequence of evaluations keeps the non-blocked device count within the
limit. -/
theorem runIngestions_preserves_bound (fps : List String) (st : UserState)
    (n : Nat) (enf : Bool) (h : nonBlockedCount st ≤ n) :
    nonBlockedCount (runIngestions st fps (some n) enf).2 ≤ n := by
  induction fps generalizing st with
  | nil => simpa [runIngestions] using h
  | cons fp rest ih =>
      simpa [runIngestions] using
        ih (evaluate st fp (some n) enf).2
          (evaluate_preserves_bound st fp n enf h)

/-- C1: under a device limit, the count of non-blocked devices never exceeds
the limit along any sequence of ingestions — by the per-user atomicity
boundary of §4.3/§5 every concurrent schedule of ingestions is equivalent to
some sequential order, and the sequence and the starting triple below range
over all such orders; and for three concurrent ingestions of three distinct
unseen fingerprints under `device_limit = 1`, exactly one evaluation returns
Accept, two return Reject, and the final device count is 1. -/
theorem device_limit_bound_and_concurrent_scenario (x y z : String)
    (fps : List String) (st : UserState) (n : Nat) (enf : Bool)
    (hbound : nonBlockedCount st ≤ n)
    (hxy : x ≠ y) (hxz : x ≠ z) (hyz : y ≠ z) :
    nonBlockedCount (runIngestions st fps (some n) enf).2 ≤ n ∧
    (runIngestions UserState.initial [x, y, z] (some 1) true).1 =
      [EvalResult.accept, EvalResult.reject RejectReason.limitExceeded,
       EvalResult.reject RejectReason.limitExceeded] ∧
    nonBlockedCount (runIngestions UserState.initial [x, y, z]
      (some 1) true).2 = 1 := by
  refine ⟨runIngestions_preserves_bound fps st n enf hbound, ?_, ?_⟩ <;>
    simp [runIngestions, evaluate, knownNonBlocked, knownFingerprint,
      nonBlockedCount, acceptNewDevice, UserState.initial,
      hxy, hxz, hyz]

/-- Witness for C1 at a concrete input: three concurrent ingestions of the
distinct fingerprints `"a"`, `"b"`, `"c"` under limit 1 give one Accept and
two Rejects, ending with a single device. -/
theorem device_limit_bound_and_concurrent_scenario_witness :
    (runIngestions UserState.initial ["a", "b", "c"] (some 1) true).1 =
      [EvalResult.accept, EvalResult.reject RejectReason.limitExceeded,
       EvalResult.reject RejectReason.limitExceeded] ∧
    nonBlockedCount (runIngestions UserState.initial ["a", "b", "c"]
      (some 1) true).2 = 1 :=
  (device_limit_bound_and_concurrent_scenario "a" "b" "c" []
    UserState.initial 0 true (by decide) (by decide) (by decide)
    (by decide)).2

/-- C6 counterexample: the epoch is not incremented on every accept/reject
operation — a state with one device and epoch 5 rejects the unseen
fingerprint `"b"` under limit 1 and keeps epoch 5, and the accepting
re-ingestion of the known fingerprint `"a"` also keeps epoch 5. -/
theorem epoch_not_bumped_on_reject :
    (evaluate ⟨[⟨0, "a", false, 0, none⟩], 5, [], 1⟩ "b"
      (some 1) true).1 = EvalResult.reject RejectReason.limitExceeded ∧
    (evaluate ⟨[⟨0, "a", false, 0, none⟩], 5, [], 1⟩ "b"
      (some 1) true).2.epoch = 5 ∧
    (evaluate ⟨[⟨0, "a", false, 0, none⟩], 5, [], 1⟩ "a"
      (some 1) true).1 = EvalResult.accept ∧
    (evaluate ⟨[⟨0, "a", false, 0, none⟩], 5, [], 1⟩ "a"
      (some 1) true).2.epoch = 5 := by decide

/-- C6 (amended): the epoch never decreases under any operation; acceptance
of a new device, block, unblock and delete each bump it exactly once per
call; rejections, reconnection accepts and trust-level/display-name changes
leave it unchanged. -/
theorem epoch_monotonic_bumps :
    (∀ st fp lim enf, st.epoch ≤ (evaluate st fp lim enf).2.epoch) ∧
    (∀ st fp lim enf, knownFingerprint st fp = false →
      (evaluate st fp lim enf).1 = EvalResult.accept →
      (evaluate st fp lim enf).2.epoch = st.epoch + 1) ∧
    (∀ st fp lim enf r, (evaluate st fp lim enf).1 = EvalResult.reject r →
      (evaluate st fp lim enf).2.epoch = st.epoch) ∧
    (∀ st fp lim enf, knownNonBlocked st fp = true →
      (evaluate st fp lim enf).2.epoch = st.epoch) ∧
    (∀ st did d b st2, blockDevice st did = some (d, b, st2) →
      st2.epoch = st.epoch + 1) ∧
    (∀ st did d b st2, unblockDevice st did = some (d, b, st2) →
      st2.epoch = st.epoch + 1) ∧
    (∀ st did d b st2, deleteDevice st did = some (d, b, st2) →
      st2.epoch = st.epoch + 1) ∧
    (∀ st did v d b st2, setTrustLevel st did v = some (d, b, st2) →
      st2.epoch = st.epoch) ∧
    (∀ st did s d b st2, setDisplayName st did s = some (d, b, st2) →
      st2.epoch = st.epoch) := by
  refine ⟨?_, ?_, ?_, ?_, ?_, ?_, ?_, ?_, ?_⟩
  · intro st fp lim enf
    by_cases h1 : knownNonBlocked st fp = true
    · simp [evaluate, h1]
    · by_cases hk : knownFingerprint st fp = true
      · simp [evaluate, h1, hk]
      · cases lim with
        | none => simp [evaluate, h1, hk, acceptNewDevice]
        | some n =>
            by_cases h3 : nonBlockedCount st < n
            · simp [evaluate, h1, hk, h3, acceptNewDevice]
            · simp [evaluate, h1, hk, h3]
  · intro st fp lim enf hu ha
    have hnb := knownNonBlocked_false_of st fp hu
    cases lim with
    | none => simp [evaluate, hnb, hu, acceptNewDevice]
    | some n =>
        by_cases h3 : nonBlockedCount st < n
        · simp [evaluate, hnb, hu, h3, acceptNewDevice]
        · simp [evaluate, hnb, hu, h3] at ha
  · intro st fp lim enf r h
    exact congrArg UserState.epoch
      (evaluate_reject_no_change st fp lim enf r h).1
  · intro st fp lim enf h
    simp [evaluate, h]
  · intro st did d b st2 h
    unfold blockDevice at h
    cases hf : findDevice st did with
    | none => simp [hf] at h
    | some d0 => simp [hf] at h; simp [← h.2.2]
  · intro st did d b st2 h
    unfold unblockDevice at h
    cases hf : findDevice st did with
    | none => simp [hf] at h
    | some d0 => simp [hf] at h; simp [← h.2.2]
  · intro st did d b st2 h
    unfold deleteDevice at h
    cases hf : findDevice st did with
    | none => simp [hf] at h
    | some d0 => simp [hf] at h; simp [← h.2.2]
  · intro st did v d b st2 h
    unfold setTrustLevel at h
    cases hf : findDevice st did with
    | none => simp [hf] at h
    | some d0 => simp [hf] at h; simp [← h.2.2]
  · intro st did s d b st2 h
    unfold setDisplayName at h
    cases hf : findDevice st did with
    | none => simp [hf] at h
    | some d0 => simp [hf] at h; simp [← h.2.2]

/-- Witness for C6 (amended) at a concrete input: blocking the only device of
a one-device state bumps the epoch from 1 to 2. -/
theorem epoch_monotonic_bumps_witness :
    (UserState.mk [⟨0, "a", true, 0, none⟩] 2 [2] 1).epoch =
      (UserState.mk [⟨0, "a", false, 0, none⟩] 1 [] 1).epoch + 1 :=
  epoch_monotonic_bumps.2.2.2.2.1 ⟨[⟨0, "a", false, 0, none⟩], 1, [], 1⟩ 0
    ⟨0, "a", true, 0, none⟩ true ⟨[⟨0, "a", true, 0, none⟩], 2, [2], 1⟩
    (by decide)

/-- C7: `block`, `unblock` and `delete` each return the updated device and
signal that the owner's allow-list must be resynced, while `setTrustLevel`
and `setDisplayName` return the updated device and never signal a resync. -/
theorem mutation_resync_signals :
    (∀ st did d b st2, blockDevice st did = some (d, b, st2) →
      b = true ∧ d.is_blocked = true ∧ d.devId = did) ∧
    (∀ st did d b st2, unblockDevice st did = some (d, b, st2) →
      b = true ∧ d.is_blocked = false ∧ d.devId = did) ∧
    (∀ st did d b st2, deleteDevice st did = some (d, b, st2) →
      b = true ∧ d.devId = did) ∧
    (∀ st did v d b st2, setTrustLevel st did v = some (d, b, st2) →
      b = false ∧ d.trust_level = v ∧ d.devId = did) ∧
    (∀ st did s d b st2, setDisplayName st did s = some (d, b, st2) →
      b = false ∧ d.display_name = s ∧ d.devId = did) := by
  refine ⟨?_, ?_, ?_, ?_, ?_⟩
  · intro st did d b st2 h
    unfold blockDevice at h
    cases hf : findDevice st did with
    | none => simp [hf] at h
    | some d0 =>
        have hid : d0.devId = did := by
          have := List.find?_some hf
          simpa using this
        simp [hf] at h
        simp [← h.1, ← h.2.1, hid]
  · intro st did d b st2 h
    unfold unblockDevice at h
    cases hf : findDevice st did with
    | none => simp [hf] at h
    | some d0 =>
        have hid : d0.devId = did := by
          have := List.find?_some hf
          simpa using this
        simp [hf] at h
        simp [← h.1, ← h.2.1, hid]
  · intro st did d b st2 h
    unfold deleteDevice at h
    cases hf : findDevice st did with
    | none => simp [hf] at h
    | some d0 =>
        have hid : d0.devId = did := by
          have := List.find?_some hf
          simpa using this
        simp [hf] at h
        simp [← h.1, ← h.2.1, hid]
  · intro st did v d b st2 h
    unfold setTrustLevel at h
    cases hf : findDevice st did with
    | none => simp [hf] at h
    | some d0 =>
        have hid : d0.devId = did := by
          have := List.find?_some hf
          simpa using this
        simp [hf] at h
        simp [← h.1, ← h.2.1, hid]
  · intro st did s d b st2 h
    unfold setDisplayName at h
    cases hf : findDevice st did with
    | none => simp [hf] at h
    | some d0 =>
        have hid : d0.devId = did := by
          have := List.find?_some hf
          simpa using this
        simp [hf] at h
        simp [← h.1, ← h.2.1, hid]

/-- Witness for C7 at a concrete input: blocking device 0 of a one-device
state signals a resync and returns the device with `is_blocked` set. -/
theorem mutation_resync_signals_witness :
    true = true ∧ (Device.mk 0 "a" true 0 none).is_blocked = true ∧
      (Device.mk 0 "a" true 0 none).devId = 0 :=
  mutation_resync_signals.1 ⟨[⟨0, "a", false, 0, none⟩], 1, [], 1⟩ 0
    ⟨0, "a", true, 0, none⟩ true ⟨[⟨0, "a", true, 0, none⟩], 2, [2], 1⟩
    (by decide)

/-- In every reachable dispatcher state, each node's acked epoch is at most
the latest epoch: tasks always carry an existing epoch. -/
theorem syncReachable_acked_le (st : SyncState) (h : SyncReachable st) :
    ∀ n, st.acked n ≤ st.latestEpoch := by
  induction h with
  | refl => intro n; exact Nat.le_refl 0
  | tail hsteps hstep ih =>
      intro n
      cases hstep with
      | mutate => exact Nat.le_trans (ih n) (Nat.le_succ _)
      | ackTask m e he =>
          by_cases hmn : n = m
          · simpa [hmn] using max_le (ih m) he
          · simpa [hmn] using ih n

/-- A sweep never changes the latest epoch. -/
theorem reconcileSweep_latestEpoch (online : List Nat) (st : SyncState) :
    (reconcileSweep online st).latestEpoch = st.latestEpoch := rfl

/-- A sweep brings every online node whose acked epoch is not ahead of the
latest epoch exactly to the latest epoch. -/
theorem reconcileSweep_acked_online (online : List Nat) (st : SyncState)
    (n : Nat) (hn : n ∈ online) (h : st.acked n ≤ st.latestEpoch) :
    (reconcileSweep online st).acked n = st.latestEpoch := by
  rcases Nat.lt_or_ge (st.acked n) st.latestEpoch with hlt | hge
  · simp [reconcileSweep, hn, hlt]
  · have heq : st.acked n = st.latestEpoch := Nat.le_antisymm h hge
    simp [reconcileSweep, heq]

/-- C8: after any finite sequence of mutations and acks followed by a period
with no further mutations, every online node's acked epoch equals the latest
epoch once the periodic reconciliation sweep has run — the first sweep
re-dispatches to any node that is behind, and every later sweep preserves
the converged value. -/
theorem reconciliation_convergence (st : SyncState) (online : List Nat)
    (h : SyncReachable st) (n : Nat) (hn : n ∈ online) (k : Nat)
    (hk : 1 ≤ k) :
    ((reconcileSweep online)^[k] st).acked n = st.latestEpoch ∧
    ((reconcileSweep online)^[k] st).latestEpoch = st.latestEpoch := by
  obtain ⟨j, rfl⟩ : ∃ j, k = j + 1 := ⟨k - 1, by omega⟩
  clear hk
  induction j with
  | zero =>
      exact ⟨reconcileSweep_acked_online online st n hn
        (syncReachable_acked_le st h n), rfl⟩
  | succ j ih =>
      obtain ⟨ha, hl⟩ := ih
      rw [Function.iterate_succ_apply']
      refine ⟨?_, hl⟩
      rw [reconcileSweep_acked_online online ((reconcileSweep online)^[j + 1] st)
        n hn (le_of_eq (ha.trans hl.symm))]
      exact hl

/-- Witness for C8 at a concrete input: from a dispatcher state reached by
one mutation (latest epoch 1, nothing acked), a single sweep brings online
node 0 to epoch 1. -/
theorem reconciliation_convergence_witness :
    ((reconcileSweep [0])^[1] (SyncState.mk 1 SyncState.start.acked)).acked
        0 = 1 ∧
    ((reconcileSweep [0])^[1]
        (SyncState.mk 1 SyncState.start.acked)).latestEpoch = 1 :=
  reconciliation_convergence ⟨1, SyncState.start.acked⟩ [0]
    (Relation.ReflTransGen.single (SyncStep.mutate SyncState.start)) 0
    (by simp) 1 (by omega)

/-- C9: `DeviceSchema` validation succeeds only if `trust_level` is absent
or an integer in `[-100, 100]`; any payload whose `trust_level` is
non-integer or out of bounds is rejected. -/
theorem trust_level_validation (p : DevicePayload) :
    (DeviceSchema.validate p = true →
      p.trust_level = none ∨
      ∃ z : ℤ, p.trust_level = some (z : ℚ) ∧ -100 ≤ z ∧ z ≤ 100) ∧
    (∀ q : ℚ, p.trust_level = some q →
      (q.den ≠ 1 ∨ q < -100 ∨ 100 < q) →
      DeviceSchema.validate p = false) := by
  constructor
  · intro h
    have ht : validTrustLevel p.trust_level = true :=
      (Bool.and_eq_true _ _ ▸ h).2
    cases hq : p.trust_level with
    | none => exact Or.inl rfl
    | some q =>
        rw [hq] at ht
        simp only [validTrustLevel, Bool.and_eq_true, decide_eq_true_eq]
          at ht
        obtain ⟨⟨hden, hlo⟩, hhi⟩ := ht
        refine Or.inr ⟨q.num, ?_, ?_, ?_⟩
        · rw [(Rat.den_eq_one_iff q).mp hden]
        · exact_mod_cast ((Rat.den_eq_one_iff q).mp hden) ▸ hlo
        · exact_mod_cast ((Rat.den_eq_one_iff q).mp hden) ▸ hhi
  · intro q hq hbad
    have ht : validTrustLevel p.trust_level = false := by
      rw [hq]
      rcases hbad with h | h | h
      · simp [validTrustLevel, h]
      · simp [validTrustLevel, not_le.mpr h]
      · simp [validTrustLevel, not_le.mpr h]
    simp [DeviceSchema.validate, ht]

/-- Witness for C9 at a concrete input: `trust_level = 7` passes and is
reported as the integer 7; `trust_level = 1/2` is rejected. -/
theorem trust_level_validation_witness :
    ((DevicePayload.mk none none (some 7)).trust_level = none ∨
      ∃ z : ℤ, (DevicePayload.mk none none (some 7)).trust_level =
        some (z : ℚ) ∧ -100 ≤ z ∧ z ≤ 100) ∧
    DeviceSchema.validate (DevicePayload.mk none none (some (1 / 2))) =
      false :=
  ⟨(trust_level_validation (DevicePayload.mk none none (some 7))).1
      (by decide),
   (trust_level_validation (DevicePayload.mk none none (some (1 / 2)))).2
      (1 / 2) rfl (Or.inl (by norm_num))⟩

/-- C10: `DeviceSchema` validation succeeds only if `display_name` is
absent, null, or a string of at most 64 characters; any payload whose
`display_name` is a string longer than 64 characters is rejected. -/
theorem display_name_validation (p : DevicePayload) :
    (DeviceSchema.validate p = true →
      p.display_name = none ∨ p.display_name = some none ∨
      ∃ s, p.display_name = some (some s) ∧ s.length ≤ 64) ∧
    (∀ s : String, p.display_name = some (some s) → 64 < s.length →
      DeviceSchema.validate p = false) := by
  constructor
  · intro h
    have hd : validDisplayName p.display_name = true :=
      (Bool.and_eq_true _ _ ▸ h).1
    cases hq : p.display_name with
    | none => exact Or.inl rfl
    | some o =>
        cases o with
        | none => exact Or.inr (Or.inl rfl)
        | some s =>
            rw [hq] at hd
            simp only [validDisplayName, decide_eq_true_eq] at hd
            exact Or.inr (Or.inr ⟨s, rfl, hd⟩)
  · intro s hs hlong
    have hd : validDisplayName p.display_name = false := by
      rw [hs]
      simp [validDisplayName, not_le.mpr hlong]
    simp [DeviceSchema.validate, hd]

/-- Witness for C10 at a concrete input: a null `display_name` passes, and a
65-character `display_name` is rejected. -/
theorem display_name_validation_witness :
    ((DevicePayload.mk (some none) none none).display_name = none ∨
      (DevicePayload.mk (some none) none none).display_name = some none ∨
      ∃ s, (DevicePayload.mk (some none) none none).display_name =
        some (some s) ∧ s.length ≤ 64) ∧
    DeviceSchema.validate (DevicePayload.mk
      (some (some (String.mk (List.replicate 65 'x')))) none none) =
      false :=
  ⟨(display_name_validation (DevicePayload.mk (some none) none none)).1
      (by decide),
   (display_name_validation (DevicePayload.mk
      (some (some (String.mk (List.replicate 65 'x')))) none none)).2
      (String.mk (List.replicate 65 'x')) rfl (by decide)⟩

/-- C3: the fingerprint engine is a pure deterministic function — identical
inputs give identical hashes — and its value is the hex encoding of the
SHA-256 digest of the ordered `"|"`-joined concatenation with empty-string
placeholders for the excluded user-identity and os-guess fields. -/
theorem calculateDeviceFingerprint_spec
    (clientName tlsFingerprint userAgent c2 t2 u2 : String)
    (hc : clientName = c2) (ht : tlsFingerprint = t2)
    (hu : userAgent = u2) :
    calculateDeviceFingerprint clientName tlsFingerprint userAgent =
      calculateDeviceFingerprint c2 t2 u2 ∧
    calculateDeviceFingerprint clientName tlsFingerprint userAgent =
      hexEncodeToString (sha256 (utf8Bytes
        ("" ++ "|" ++ clientName ++ "|" ++ tlsFingerprint ++ "|" ++ "" ++
          "|" ++ userAgent))) := by
  subst hc ht hu
  exact ⟨rfl, by
    simp [calculateDeviceFingerprint, stringsJoin, ← String.append_assoc]⟩

/-- Witness for C3 at a concrete input: the fingerprint of
`("clash", "tls", "ua")` agrees with the hash of the joined string. -/
theorem calculateDeviceFingerprint_spec_witness :
    calculateDeviceFingerprint "clash" "tls" "ua" =
      calculateDeviceFingerprint "clash" "tls" "ua" ∧
    calculateDeviceFingerprint "clash" "tls" "ua" =
      hexEncodeToString (sha256 (utf8Bytes
        ("" ++ "|" ++ "clash" ++ "|" ++ "tls" ++ "|" ++ "" ++ "|" ++
          "ua"))) :=
  calculateDeviceFingerprint_spec "clash" "tls" "ua" "clash" "tls" "ua"
    rfl rfl rfl

/-- The SHA-256 embedding agrees with FIPS 180-4 on the standard `"abc"`
test vector. -/
theorem sha256_abc_test_vector :
    hexEncodeToString (sha256 (utf8Bytes "abc")) =
      "ba7816bf8f01cfea414140de5dae2223b00361a396177a9cb410ff61f20015ad" := by
  decide

/-- End-to-end fingerprint of all-empty attributes: the SHA-256 of
`"||||"`. -/
theorem fingerprint_empty_attributes :
    calculateDeviceFingerprint "" "" "" =
      "45ca31c3315a5978f40438aab46040d75e99c9b125c2fd01db6e10ac80bef906" := by
  decide

end Marzneshin
